import Mathlib

/-!
Shallow embedding of the AMF instrument NetCDF assembly engine
(`instrument.py`, class `AMFInstrument`) and proofs about its
schema-registry loading, metadata merging, filename composition and
dataset-assembly operations.

Python dictionaries are modelled as insertion-ordered association lists
(`List (String × α)`): assignment to an existing key updates it in place,
assignment to a fresh key appends, exactly as CPython dicts behave.
Python `KeyError` / `NameError` / `IndexError` aborts are modelled with
`Except String`.
-/

namespace AMF

/-- Lookup in a Python-dict model: first (and only) binding of the key. -/
def dlookup {α : Type} (d : List (String × α)) (k : String) : Option α :=
  (d.find? (fun p => p.1 == k)).map Prod.snd

/-- Assignment `d[k] = v` in a Python-dict model: update in place when the
key exists, append otherwise (CPython insertion-order semantics). -/
def dinsert {α : Type} (d : List (String × α)) (k : String) (v : α) :
    List (String × α) :=
  match d with
  | [] => [(k, v)]
  | (k', v') :: rest =>
      if k' == k then (k, v) :: rest else (k', v') :: dinsert rest k v

/-- Removal `d.pop(k, None)` in a Python-dict model: drop every binding of
the key (there is at most one). -/
def derase {α : Type} (d : List (String × α)) (k : String) :
    List (String × α) :=
  d.filter (fun p => p.1 != k)

/-- Subscript access `d[k]` in Python: the value, or a `KeyError`. -/
def reqKey {α : Type} (d : List (String × α)) (k : String) :
    Except String α :=
  match dlookup d k with
  | some v => Except.ok v
  | none => Except.error ("KeyError: " ++ k)

/-- One parsed row of the AMF variable-definition table, with columns
`Variable`, `Attribute`, `Value` (see `csv.DictReader` use in
`read_amf_variables`). -/
structure SchemaRow where
  Variable : String
  Attribute : String
  Value : String
deriving DecidableEq, Repr

/-- The in-memory schema registry: variable name mapped to its attribute
mapping, both insertion-ordered dicts. -/
abbrev Registry : Type := List (String × List (String × String))

/-- Row-folding loop of `read_amf_variables` (lines 62-67): a non-empty
`Variable` field starts a new entry (assigning a fresh empty dict to that
name) and becomes the current variable; an empty `Variable` field stores
`Attribute`/`Value` into the current variable's dict, and is a fatal
`NameError` when no current variable exists yet. -/
def read_amf_variables_go : List SchemaRow → Registry → Option String →
    Except String Registry
  | [], out, _ => Except.ok out
  | line :: rest, out, current_var =>
      if line.Variable.length > 0 then
        read_amf_variables_go rest (dinsert out line.Variable [])
          (some line.Variable)
      else
        match current_var with
        | none => Except.error "NameError: current_var referenced before assignment"
        | some cv =>
            match dlookup out cv with
            | none => Except.error ("KeyError: " ++ cv)
            | some attrs =>
                read_amf_variables_go rest
                  (dinsert out cv (dinsert attrs line.Attribute line.Value))
                  (some cv)

/-- `AMFInstrument.read_amf_variables`: folds the parsed rows into a
registry, starting with an empty dict and no current variable. -/
def read_amf_variables (rows : List SchemaRow) : Except String Registry :=
  read_amf_variables_go rows [] none

/-- A type-(b) attribute row (empty `Variable` field) built from an
attribute/value pair. -/
def bRow (p : String × String) : SchemaRow :=
  { Variable := "", Attribute := p.1, Value := p.2 }

/-- Folding a list of attribute/value pairs into an attribute dict, in
order, later values overwriting earlier ones per attribute. -/
def attrFold (d : List (String × String)) (as : List (String × String)) :
    List (String × String) :=
  as.foldl (fun d p => dinsert d p.1 p.2) d

/-- Attribute of a variable in a loaded registry, `none` when the load
failed, the variable is absent, or the attribute is absent. -/
def registryAttr (r : Except String Registry) (v a : String) :
    Option String :=
  match r with
  | Except.ok out => (dlookup out v).bind (fun d => dlookup d a)
  | Except.error _ => none

/-- The in-memory metadata store: key mapped to the tail fields of its row
(`raw_metadata[row[0]] = row[1:]`). -/
abbrev MetaStore : Type := List (String × List String)

/-- One row of `get_metadata` (lines 91-93): only rows with exactly two
fields whose key is not the header marker `"Variable"` are stored, and the
stored value is the tail `row[1:]`. All other rows are skipped. -/
def metadataStep (md : MetaStore) (row : List String) : MetaStore :=
  match row with
  | [k, v] => if k == "Variable" then md else dinsert md k [v]
  | _ => md

/-- `AMFInstrument.get_metadata`: folds the metadata files in the order
given, each file's rows in order, into one store. A file is modelled as
its list of parsed CSV rows. -/
def get_metadata (metafiles : List (List (List String))) : MetaStore :=
  metafiles.foldl (fun md file => file.foldl metadataStep md) []

/-- Python's `sep.join(elements)`. -/
def strJoin (sep : String) : List String → String
  | [] => ""
  | [x] => x
  | x :: xs => x ++ sep ++ strJoin sep xs

/-- `AMFInstrument.filename` (lines 97-113): joins instrument name,
platform name (first field of the `platform_name` metadata row), time
coverage start, data product and `"v" + str(version)` with underscores and
appends `".nc"`. A missing `platform_name` key is a `KeyError`; an empty
field list is an `IndexError`. `version` defaults to `1`. -/
def filename (instrument_name : String) (raw_metadata : MetaStore)
    (time_coverage_start : String) (data_product : String)
    (version : Nat := 1) : Except String String := do
  let pn ← reqKey raw_metadata "platform_name"
  match pn.head? with
  | none => Except.error "IndexError: list index out of range"
  | some pn0 =>
      Except.ok (strJoin "_"
        [instrument_name, pn0, time_coverage_start, data_product,
         "v" ++ toString version] ++ ".nc")

/-- A calendar timestamp, second precision, proleptic Gregorian calendar,
years from 1970 onward (the epoch used by the code). -/
structure DateTime where
  year : Nat
  month : Nat
  day : Nat
  hour : Nat
  minute : Nat
  second : Nat
deriving DecidableEq, Repr

/-- Gregorian leap-year test. -/
def isLeap (y : Nat) : Bool :=
  (y % 4 == 0 && y % 100 != 0) || y % 400 == 0

/-- Days in a month of a given year. -/
def daysInMonth (y m : Nat) : Nat :=
  if m == 2 then (if isLeap y then 29 else 28)
  else if m == 4 || m == 6 || m == 9 || m == 11 then 30
  else 31

/-- Days in a year. -/
def daysInYear (y : Nat) : Nat := if isLeap y then 366 else 365

/-- Days from 1970-01-01 to the given date. -/
def daysSinceEpoch (d : DateTime) : Nat :=
  (List.range (d.year - 1970)).foldl (fun acc i => acc + daysInYear (1970 + i)) 0
    + (List.range (d.month - 1)).foldl (fun acc i => acc + daysInMonth d.year (i + 1)) 0
    + (d.day - 1)

/-- Seconds from the epoch `datetime(1970,1,1,0,0,0)` to the given
timestamp: the value of `(index - base_time).total_seconds()` for
whole-second timestamps. The code stores these as 64-bit floats; integral
second counts of this magnitude are represented exactly there, so the
embedding uses exact integers. -/
def epochSeconds (d : DateTime) : Nat :=
  daysSinceEpoch d * 86400 + d.hour * 3600 + d.minute * 60 + d.second

/-- Left-pad a decimal rendering with zeros to the given width, as
`strftime` does for its numeric directives. -/
def padZero (width n : Nat) : String :=
  let s := toString n
  String.mk (List.replicate (width - s.length) '0') ++ s

/-- `strftime('%Y-%m-%dT%H:%M:%S')` — the class's `attribtimeformat`. -/
def strftimeAttrib (d : DateTime) : String :=
  padZero 4 d.year ++ "-" ++ padZero 2 d.month ++ "-" ++ padZero 2 d.day
    ++ "T" ++ padZero 2 d.hour ++ ":" ++ padZero 2 d.minute ++ ":" ++ padZero 2 d.second

/-- `strftime('%Y-%m-%d %H:%M:%S')` — used to build the time units string. -/
def strftimeSpace (d : DateTime) : String :=
  padZero 4 d.year ++ "-" ++ padZero 2 d.month ++ "-" ++ padZero 2 d.day
    ++ " " ++ padZero 2 d.hour ++ ":" ++ padZero 2 d.minute ++ ":" ++ padZero 2 d.second

/-- `self.base_time = datetime(1970,1,1,0,0,0)`. -/
def base_time : DateTime := ⟨1970, 1, 1, 0, 0, 0⟩

/-- A value stored in a NetCDF variable: a numeric offset (exact integral
seconds) or a raw string field taken from metadata. -/
inductive NCValue where
  | int (n : Int)
  | str (s : String)
deriving DecidableEq, Repr

/-- One NetCDF variable of the output Dataset: name, on-disk type tag,
dimension-name tuple, optional fill value, attribute dict, data. -/
structure NCVariable where
  name : String
  vtype : String
  dims : List String
  fill_value : Option String
  attrs : List (String × String)
  data : List NCValue
deriving DecidableEq, Repr

/-- The NetCDF Dataset handle: dimensions (name and size, `none` for an
unlimited dimension), variables, global attributes. -/
structure NCDataset where
  dims : List (String × Option Nat)
  vars : List NCVariable
  attrs : List (String × String)
deriving DecidableEq, Repr

/-- A freshly created Dataset, before any dimension or variable exists. -/
def emptyDataset : NCDataset := ⟨[], [], []⟩

/-- Whether a dimension of the given name exists on the Dataset. -/
def hasDim (ds : NCDataset) (name : String) : Bool :=
  ds.dims.any (fun p => p.1 == name)

/-- Whether a variable of the given name exists on the Dataset. -/
def hasVar (ds : NCDataset) (name : String) : Bool :=
  ds.vars.any (fun v => v.name == name)

/-- `Dataset.createDimension`: fails when the name is already in use
(netCDF4 semantics), otherwise records the new dimension. -/
def createDimension (ds : NCDataset) (name : String) (size : Option Nat) :
    Except String NCDataset :=
  if hasDim ds name then
    Except.error ("RuntimeError: dimension name already in use: " ++ name)
  else
    Except.ok { ds with dims := ds.dims ++ [(name, size)] }

/-- `Dataset.createVariable`: fails when the variable name is already in
use or when a referenced dimension does not exist on the Dataset (netCDF4
semantics — `createVariable` does not create dimensions), otherwise
records the new variable with empty attributes and data. -/
def createVariable (ds : NCDataset) (name vtype : String)
    (dims : List String) (fill : Option String) : Except String NCDataset :=
  if hasVar ds name then
    Except.error ("RuntimeError: variable name already in use: " ++ name)
  else if dims.all (fun d => hasDim ds d) then
    Except.ok { ds with
      vars := ds.vars ++ [⟨name, vtype, dims, fill, [], []⟩] }
  else
    Except.error ("KeyError: dimension not found for variable " ++ name)

/-- Attribute assignment `var.key = val` on a named variable. -/
def setVarAttr (ds : NCDataset) (vname key val : String) : NCDataset :=
  { ds with vars := ds.vars.map (fun v =>
      if v.name == vname then { v with attrs := dinsert v.attrs key val }
      else v) }

/-- Data assignment `var[:] = vals` on a named variable. -/
def writeVarData (ds : NCDataset) (vname : String) (vals : List NCValue) :
    NCDataset :=
  { ds with vars := ds.vars.map (fun v =>
      if v.name == vname then { v with data := vals } else v) }

/-- Global attribute assignment `dataset.key = val`. -/
def setGlobalAttr (ds : NCDataset) (key val : String) : NCDataset :=
  { ds with attrs := dinsert ds.attrs key val }

/-- The variable of the given name, when present. -/
def getVar (ds : NCDataset) (vname : String) : Option NCVariable :=
  ds.vars.find? (fun v => v.name == vname)

/-- An attribute of a named variable, when both exist. -/
def varAttr (ds : NCDataset) (vname key : String) : Option String :=
  (getVar ds vname).bind (fun v => dlookup v.attrs key)

/-- The data of a named variable, when it exists. -/
def varData (ds : NCDataset) (vname : String) : Option (List NCValue) :=
  (getVar ds vname).map (fun v => v.data)

/-- A global attribute of the Dataset. -/
def globalAttr (ds : NCDataset) (key : String) : Option String :=
  dlookup ds.attrs key

/-- Python's `s.split(',')` over the character list: splits at every comma
and keeps empty pieces. -/
def splitCommaChars : List Char → List (List Char)
  | [] => [[]]
  | c :: cs =>
      match splitCommaChars cs, c == ',' with
      | r, true => [] :: r
      | [], false => [[c]]
      | g :: gs, false => (c :: g) :: gs

/-- Python's `x.strip()`: drops leading and trailing whitespace. -/
def strip (s : String) : String :=
  String.mk (((s.data.dropWhile Char.isWhitespace).reverse.dropWhile
    Char.isWhitespace).reverse)

/-- `[x.strip() for x in s.split(',')]` from line 72. -/
def splitStrip (s : String) : List String :=
  (splitCommaChars s.data).map (fun cs => strip (String.mk cs))

/-- `AMFInstrument.amf_var_to_netcdf_var` (lines 71-82): looks the variable
up in the registry, creates the NetCDF variable with the entry's `name`,
`type`, comma-split-and-stripped `dimension` list and `_FillValue`, sets
the `long_name`, `units`, `coordinates`, `cell_methods`, `dimension` and
`type` attributes, and sets `standard_name` only when the entry's
`standard_name` value is truthy (non-empty). Every subscript on the entry
dict is a `KeyError` when the key is absent — including `standard_name`
itself. No dimension is ever created here. -/
def amf_var_to_netcdf_var (amfvars : Registry) (ds : NCDataset)
    (varname : String) : Except String NCDataset := do
  let entry ← reqKey amfvars varname
  let nm ← reqKey entry "name"
  let ty ← reqKey entry "type"
  let dim ← reqKey entry "dimension"
  let fv ← reqKey entry "_FillValue"
  let ds ← createVariable ds nm ty (splitStrip dim) (some fv)
  let ln ← reqKey entry "long_name"
  let ds := setVarAttr ds nm "long_name" ln
  let un ← reqKey entry "units"
  let ds := setVarAttr ds nm "units" un
  let co ← reqKey entry "coordinates"
  let ds := setVarAttr ds nm "coordinates" co
  let cm ← reqKey entry "cell_methods"
  let ds := setVarAttr ds nm "cell_methods" cm
  let ds := setVarAttr ds nm "dimension" dim
  let ds := setVarAttr ds nm "type" ty
  let sn ← reqKey entry "standard_name"
  if sn.length > 0 then
    Except.ok (setVarAttr ds nm "standard_name" sn)
  else
    Except.ok ds

/-- `AMFInstrument.add_standard_time` (lines 115-141): creates the
unlimited `time` dimension, computes each index row's offset in seconds
from `base_time`, creates the `time` variable (type `float64`, dimension
`("time",)`, no fill value), sets its attributes, writes the offsets, and
sets the `time_coverage_start`/`time_coverage_end` global attributes from
the first and last index entries formatted with `attribtimeformat`. An
empty index is an `IndexError`. -/
def add_standard_time (ds : NCDataset) (index : List DateTime) :
    Except String NCDataset := do
  let ds ← createDimension ds "time" none
  let timeoffsets := index.map (fun t => NCValue.int (epochSeconds t))
  let time_units := "seconds since " ++ strftimeSpace base_time
  let ds ← createVariable ds "time" "float64" ["time"] none
  let ds := setVarAttr ds "time" "units" time_units
  let ds := setVarAttr ds "time" "axis" "T"
  let ds := setVarAttr ds "time" "standard_name" "time"
  let ds := setVarAttr ds "time" "long_name" ("Time (" ++ time_units ++ ")")
  let ds := setVarAttr ds "time" "calendar" "standard"
  let ds := setVarAttr ds "time" "type" "float64"
  let ds := setVarAttr ds "time" "dimension" "time"
  let ds := writeVarData ds "time" timeoffsets
  match index.head?, index.getLast? with
  | some first, some last =>
      let ds := setGlobalAttr ds "time_coverage_start" (strftimeAttrib first)
      let ds := setGlobalAttr ds "time_coverage_end" (strftimeAttrib last)
      Except.ok ds
  | _, _ => Except.error "IndexError: list index out of range"

/-- `AMFInstrument.land_coordinates` (lines 159-185): creates the length-1
`latitude` and `longitude` dimensions and variables with their fixed
attributes, writes the `platform_longitude` then `platform_latitude`
metadata fields into them (a `KeyError` when either key is absent), and
then removes both keys from the metadata store. Returns the updated
Dataset and the residual store. -/
def land_coordinates (ds : NCDataset) (raw_metadata : MetaStore) :
    Except String (NCDataset × MetaStore) := do
  let ds ← createDimension ds "latitude" (some 1)
  let ds ← createDimension ds "longitude" (some 1)
  let ds ← createVariable ds "latitude" "float32" ["latitude"] none
  let ds := setVarAttr ds "latitude" "units" "degrees_north"
  let ds := setVarAttr ds "latitude" "standard_name" "latitude"
  let ds := setVarAttr ds "latitude" "long_name" "Latitude"
  let ds := setVarAttr ds "latitude" "type" "float32"
  let ds := setVarAttr ds "latitude" "dimension" "latitude"
  let ds ← createVariable ds "longitude" "float32" ["longitude"] none
  let ds := setVarAttr ds "longitude" "units" "degrees_east"
  let ds := setVarAttr ds "longitude" "standard_name" "longitude"
  let ds := setVarAttr ds "longitude" "long_name" "Longitude"
  let ds := setVarAttr ds "longitude" "type" "float32"
  let ds := setVarAttr ds "longitude" "dimension" "longitude"
  let lon ← reqKey raw_metadata "platform_longitude"
  let ds := writeVarData ds "longitude" (lon.map NCValue.str)
  let lat ← reqKey raw_metadata "platform_latitude"
  let ds := writeVarData ds "latitude" (lat.map NCValue.str)
  let md := derase raw_metadata "platform_longitude"
  let md := derase md "platform_latitude"
  Except.ok (ds, md)

/-! ### Dictionary lemmas -/

theorem dlookup_dinsert_self {α : Type} (d : List (String × α)) (k : String)
    (v : α) : dlookup (dinsert d k v) k = some v := by
  induction d with
  | nil => simp [dlookup, dinsert]
  | cons p rest ih =>
      obtain ⟨k', v'⟩ := p
      by_cases h : k' == k
      · simp [dlookup, dinsert, h]
      · simp only [dinsert, h, if_false, Bool.false_eq_true]
        simpa [dlookup, List.find?, h] using ih

theorem dlookup_dinsert_ne {α : Type} (d : List (String × α)) (k k' : String)
    (v : α) (h : k' ≠ k) : dlookup (dinsert d k v) k' = dlookup d k' := by
  have hkk' : (k == k') = false := beq_eq_false_iff_ne.mpr (fun hh => h hh.symm)
  induction d with
  | nil => simp [dlookup, dinsert, List.find?, hkk']
  | cons p rest ih =>
      obtain ⟨k1, v1⟩ := p
      by_cases h1 : k1 == k
      · have hk : k1 = k := by simpa using h1
        subst hk
        simp [dlookup, dinsert, List.find?, hkk', h1]
      · rw [dinsert, if_neg h1]
        by_cases h2 : k1 == k'
        · simp [dlookup, List.find?, h2]
        · have h2f : (k1 == k') = false := by simpa using h2
          simpa [dlookup, List.find?, h2f] using ih

theorem dlookup_derase_self {α : Type} (d : List (String × α)) (k : String) :
    dlookup (derase d k) k = none := by
  induction d with
  | nil => rfl
  | cons p rest ih =>
      obtain ⟨k1, v1⟩ := p
      by_cases h : k1 == k
      · have hb : ((k1, v1).1 != k) = false := by simpa [bne] using h
        simpa [derase, List.filter_cons, hb] using ih
      · have hb : ((k1, v1).1 != k) = true := by simpa [bne] using h
        have hf : (k1 == k) = false := by simpa using h
        simp only [derase] at ih
        simp [derase, List.filter_cons, hb, dlookup, List.find?, hf, ih]

theorem dlookup_derase_ne {α : Type} (d : List (String × α)) (k k' : String)
    (h : k' ≠ k) : dlookup (derase d k) k' = dlookup d k' := by
  induction d with
  | nil => rfl
  | cons p rest ih =>
      obtain ⟨k1, v1⟩ := p
      by_cases h1 : k1 == k
      · have hk : k1 = k := by simpa using h1
        have hk' : (k1 == k') = false :=
          beq_eq_false_iff_ne.mpr (by rw [hk]; exact fun hh => h hh.symm)
        have hb : ((k1, v1).1 != k) = false := by simpa [bne] using h1
        simpa [derase, List.filter_cons, hb, dlookup, List.find?, hk'] using ih
      · have hb : ((k1, v1).1 != k) = true := by simpa [bne] using h1
        by_cases h2 : k1 == k'
        · simp [derase, List.filter_cons, hb, dlookup, List.find?, h2]
        · have h2f : (k1 == k') = false := by simpa using h2
          simpa [derase, List.filter_cons, hb, dlookup, List.find?, h2f] using ih

theorem mem_dinsert {α : Type} (d : List (String × α)) (k : String) (v : α)
    (p : String × α) (hp : p ∈ dinsert d k v) : p ∈ d ∨ p = (k, v) := by
  induction d with
  | nil => simpa [dinsert] using hp
  | cons q rest ih =>
      obtain ⟨k', v'⟩ := q
      by_cases h : k' == k
      · simp only [dinsert, h, if_true] at hp
        rcases List.mem_cons.mp hp with h1 | h1
        · exact Or.inr h1
        · exact Or.inl (List.mem_cons_of_mem _ h1)
      · simp only [dinsert, h, if_false, Bool.false_eq_true] at hp
        rcases List.mem_cons.mp hp with h1 | h1
        · exact Or.inl (h1 ▸ List.mem_cons_self _ _)
        · rcases ih h1 with h2 | h2
          · exact Or.inl (List.mem_cons_of_mem _ h2)
          · exact Or.inr h2

theorem dlookup_mem {α : Type} (d : List (String × α)) (k : String) (v : α)
    (h : dlookup d k = some v) : (k, v) ∈ d := by
  induction d with
  | nil => simp [dlookup] at h
  | cons p rest ih =>
      obtain ⟨k', v'⟩ := p
      by_cases h1 : k' == k
      · have hk : k' = k := by simpa using h1
        simp [dlookup, List.find?, h1] at h
        exact h ▸ hk ▸ List.mem_cons_self _ _
      · simp only [dlookup, List.find?, h1] at h
        exact List.mem_cons_of_mem _ (ih h)

/-! ### C1 — schema re-declaration semantics -/

theorem go_attr_rows (v : String) (as : List (String × String))
    (rest : List SchemaRow) (d : List (String × String)) :
    read_amf_variables_go (as.map bRow ++ rest) [(v, d)] (some v)
      = read_amf_variables_go rest [(v, attrFold d as)] (some v) := by
  induction as generalizing d with
  | nil => simp [attrFold]
  | cons p as ih =>
      simp only [List.map_cons, List.cons_append, read_amf_variables_go, bRow]
      rw [if_neg (by simp)]
      simp only [dlookup, List.find?, beq_self_eq_true, Option.map_some]
      simp only [dinsert, beq_self_eq_true, if_true]
      exact ih (dinsert d p.1 p.2)

/-- C1 (amended): when a variable name is declared, some attribute rows are
folded in, and the same name is re-declared, the registry entry is reset to
an empty mapping at the re-declaration; the final entry holds exactly the
attributes of the rows following the last declaration. -/
theorem c1_redeclaration_resets_entry (v a1 w1 a2 w2 : String)
    (hv : 0 < v.length) (as1 as2 : List (String × String)) :
    read_amf_variables
      (SchemaRow.mk v a1 w1 ::
        (as1.map bRow ++ (SchemaRow.mk v a2 w2 :: as2.map bRow)))
      = Except.ok [(v, attrFold [] as2)] := by
  simp only [read_amf_variables, read_amf_variables_go]
  rw [if_pos hv]
  simp only [dinsert]
  rw [go_attr_rows]
  simp only [read_amf_variables_go]
  rw [if_pos hv]
  simp only [dinsert, beq_self_eq_true, if_true]
  rw [show (as2.map bRow) = (as2.map bRow ++ []) by simp, go_attr_rows]
  simp [read_amf_variables_go]

/-- The schema rows of the C1 counterexample: `WS` declared, given
`long_name`, re-declared, then given `units`. -/
def c1Rows : List SchemaRow :=
  [⟨"WS", "", ""⟩, bRow ("long_name", "Wind Speed"), ⟨"WS", "", ""⟩,
   bRow ("units", "m/s")]

/-- C1 (counterexample): on `c1Rows` the claim requires the final `WS`
entry to keep `long_name = "Wind Speed"` from before the re-declaration;
the code instead drops it (while `units` from after the re-declaration is
present), so the final entry is not the claimed union. -/
theorem c1_counterexample :
    registryAttr (read_amf_variables c1Rows) "WS" "units" = some "m/s" ∧
    ¬ registryAttr (read_amf_variables c1Rows) "WS" "long_name"
        = some "Wind Speed" := by
  constructor
  · rfl
  · decide

/-- C1 witness: the amended theorem applied to the counterexample rows. -/
theorem c1_redeclaration_resets_entry_witness :
    0 < ("WS" : String).length ∧
    read_amf_variables c1Rows = Except.ok [("WS", [("units", "m/s")])] := by
  refine ⟨by decide, ?_⟩
  have h := c1_redeclaration_resets_entry "WS" "" "" "" "" (by decide)
    [("long_name", "Wind Speed")] [("units", "m/s")]
  simpa [c1Rows, bRow, attrFold, dinsert] using h

/-! ### C9 — attribute row before any variable row -/

/-- C9: a schema source whose first row is a type-(b) attribute row (empty
`Variable` field) fails fatally — there is no current variable to attach
to — and no registry is produced. -/
theorem c9_attr_row_before_var_fails (r : SchemaRow) (rest : List SchemaRow)
    (h : r.Variable = "") :
    read_amf_variables (r :: rest)
      = Except.error "NameError: current_var referenced before assignment" := by
  simp [read_amf_variables, read_amf_variables_go, h]

/-- C9 witness: the failure on a concrete one-row schema source. -/
theorem c9_attr_row_before_var_fails_witness :
    (SchemaRow.mk "" "units" "m/s").Variable = "" ∧
    read_amf_variables [SchemaRow.mk "" "units" "m/s"]
      = Except.error "NameError: current_var referenced before assignment" :=
  ⟨rfl, c9_attr_row_before_var_fails (SchemaRow.mk "" "units" "m/s") [] rfl⟩

/-! ### C5 — metadata last-writer-wins -/

/-- C5: metadata sources are folded in the given order (appending a source
folds its rows onto the store built from the earlier sources), storing a
two-field row fully replaces the key's earlier value and leaves every
other key unchanged, and on the two-source example the later source wins. -/
theorem c5_last_writer_wins :
    (∀ (files : List (List (List String))) (f : List (List String)),
      get_metadata (files ++ [f]) = f.foldl metadataStep (get_metadata files)) ∧
    (∀ (md : MetaStore) (k v : String), k ≠ "Variable" →
      dlookup (metadataStep md [k, v]) k = some [v] ∧
      ∀ k', k' ≠ k → dlookup (metadataStep md [k, v]) k' = dlookup md k') ∧
    dlookup (get_metadata [[["platform_name", "A"]], [["platform_name", "B"]]])
      "platform_name" = some ["B"] := by
  refine ⟨?_, ?_, by rfl⟩
  · intro files f
    simp [get_metadata, List.foldl_append]
  · intro md k v hk
    have hkb : (k == "Variable") = false := beq_eq_false_iff_ne.mpr hk
    refine ⟨?_, ?_⟩
    · simp [metadataStep, hkb, dlookup_dinsert_self]
    · intro k' hk'
      simp [metadataStep, hkb, dlookup_dinsert_ne md k k' [v] hk']

/-- C5 witness: the step-level parts applied at a concrete store and keys,
and the two-source example. -/
theorem c5_last_writer_wins_witness :
    ("platform_name" : String) ≠ "Variable" ∧
    ("other" : String) ≠ "platform_name" ∧
    dlookup (metadataStep [("platform_name", ["A"]), ("other", ["x"])]
      ["platform_name", "B"]) "platform_name" = some ["B"] ∧
    dlookup (metadataStep [("platform_name", ["A"]), ("other", ["x"])]
      ["platform_name", "B"]) "other" = some ["x"] := by
  have h := (c5_last_writer_wins.2.1
    [("platform_name", ["A"]), ("other", ["x"])] "platform_name" "B"
    (by decide))
  exact ⟨by decide, by decide, h.1, h.2 "other" (by decide)⟩

/-! ### C10 — metadata values are singleton rows -/

theorem metadataStep_inv (md : MetaStore) (row : List String)
    (h : ∀ p ∈ md, p.2.length = 1 ∧ p.1 ≠ "Variable") :
    ∀ p ∈ metadataStep md row, p.2.length = 1 ∧ p.1 ≠ "Variable" := by
  intro p hp
  rcases row with _ | ⟨k, _ | ⟨v, _ | ⟨w, rest⟩⟩⟩
  · exact h p (by simpa [metadataStep] using hp)
  · exact h p (by simpa [metadataStep] using hp)
  · by_cases hk : (k == "Variable")
    · exact h p (by simpa [metadataStep, hk] using hp)
    · simp only [metadataStep, hk, if_false, Bool.false_eq_true] at hp
      rcases mem_dinsert md k [v] p hp with h1 | h1
      · exact h p h1
      · subst h1
        exact ⟨rfl, by simpa using hk⟩
  · exact h p (by simpa [metadataStep] using hp)

theorem get_metadata_go_inv (files : List (List (List String)))
    (md : MetaStore) (h : ∀ p ∈ md, p.2.length = 1 ∧ p.1 ≠ "Variable") :
    ∀ p ∈ files.foldl (fun md file => file.foldl metadataStep md) md,
      p.2.length = 1 ∧ p.1 ≠ "Variable" := by
  induction files generalizing md with
  | nil => exact h
  | cons f files ih =>
      refine ih (f.foldl metadataStep md) ?_
      clear ih
      induction f generalizing md with
      | nil => exact h
      | cons r f ihf => exact ihf (metadataStep md r) (metadataStep_inv md r h)

/-- C10: every value held by a loaded metadata store is a single-field
row — only two-column rows whose key is not the header marker are stored,
with the one-element tail as the value — so the first field of any present
key exists, and the header key itself is never present. -/
theorem c10_values_are_singletons (files : List (List (List String)))
    (k : String) (v : List String)
    (h : dlookup (get_metadata files) k = some v) :
    v.length = 1 ∧ v.head?.isSome = true ∧ k ≠ "Variable" := by
  have hm : (k, v) ∈ get_metadata files := dlookup_mem _ _ _ h
  have hinv := get_metadata_go_inv files [] (by simp) (k, v)
    (by simpa [get_metadata] using hm)
  refine ⟨hinv.1, ?_, hinv.2⟩
  rcases v with _ | ⟨x, tl⟩
  · simp at hinv
  · rfl

/-- C10 witness: the invariant at a concrete one-source load. -/
theorem c10_values_are_singletons_witness :
    dlookup (get_metadata [[["platform_name", "A"]]]) "platform_name"
      = some ["A"] ∧
    (["A"] : List String).length = 1 ∧
    (["A"] : List String).head?.isSome = true ∧
    ("platform_name" : String) ≠ "Variable" := by
  refine ⟨by rfl, ?_⟩
  exact c10_values_are_singletons [[["platform_name", "A"]]] "platform_name"
    ["A"] (by rfl)

/-! ### C3 — filename composition -/

/-- C3: with `platform_name` present (first field `pn`), the composed
filename is exactly the underscore-joined concatenation ending in the
version tag and `.nc`; the version defaults to `1`; and the function is
deterministic (two calls on identical inputs agree definitionally). -/
theorem c3_filename_format (instrument_name : String) (md : MetaStore)
    (tcs dp : String) (ver : Nat) (pn : String) (tl : List String)
    (h : dlookup md "platform_name" = some (pn :: tl)) :
    filename instrument_name md tcs dp ver
      = Except.ok (instrument_name ++ "_" ++ pn ++ "_" ++ tcs ++ "_" ++ dp
          ++ "_v" ++ toString ver ++ ".nc") ∧
    filename instrument_name md tcs dp = filename instrument_name md tcs dp 1 ∧
    filename instrument_name md tcs dp ver
      = filename instrument_name md tcs dp ver := by
  refine ⟨?_, rfl, rfl⟩
  simp only [filename, reqKey, h, bind, Except.bind, List.head?]
  simp only [strJoin, String.append_assoc]
  rw [show ("_" : String) ++ ("v" ++ (toString ver ++ ".nc"))
      = ("_" ++ "v") ++ (toString ver ++ ".nc")
    from (String.append_assoc _ _ _).symm]
  rfl

/-- C3 witness: the format at a concrete input. -/
theorem c3_filename_format_witness :
    dlookup [("platform_name", ["plat"])] "platform_name" = some ("plat" :: []) ∧
    filename "inst" [("platform_name", ["plat"])] "20200101" "surface_met" 2
      = Except.ok ("inst" ++ "_" ++ "plat" ++ "_" ++ "20200101" ++ "_"
          ++ "surface_met" ++ "_v" ++ toString 2 ++ ".nc") := by
  refine ⟨by rfl, ?_⟩
  exact (c3_filename_format "inst" [("platform_name", ["plat"])] "20200101"
    "surface_met" 2 "plat" [] (by rfl)).1

/-! ### C8 — filename with missing platform_name -/

/-- C8: when `platform_name` is absent from the metadata store, `filename`
fails with the missing-metadata error naming the key, and returns no
filename. -/
theorem c8_filename_missing_platform_fails (instrument_name : String)
    (md : MetaStore) (tcs dp : String) (ver : Nat)
    (h : dlookup md "platform_name" = none) :
    filename instrument_name md tcs dp ver
      = Except.error ("KeyError: " ++ "platform_name") := by
  simp [filename, reqKey, h, bind, Except.bind]

/-- C8 witness: the failure on an empty metadata store. -/
theorem c8_filename_missing_platform_fails_witness :
    dlookup ([] : MetaStore) "platform_name" = none ∧
    filename "inst" [] "20200101" "surface_met" 1
      = Except.error ("KeyError: " ++ "platform_name") :=
  ⟨rfl, c8_filename_missing_platform_fails "inst" [] "20200101" "surface_met"
    1 rfl⟩

/-! ### Dataset-assembly helper lemmas -/

theorem hasVar_forall {ds : NCDataset} {nm : String} (h : hasVar ds nm = false) :
    ∀ w ∈ ds.vars, (w.name == nm) = false := by
  intro w hw
  simpa using List.any_eq_false.mp h w hw

theorem setVarAttr_append_fresh (ds : NCDataset) (v : NCVariable)
    (nm k val : String) (hfresh : hasVar ds nm = false) (hname : v.name = nm) :
    setVarAttr { ds with vars := ds.vars ++ [v] } nm k val
      = { ds with vars := ds.vars ++ [{ v with attrs := dinsert v.attrs k val }] } := by
  have hmap : ds.vars.map (fun w =>
      if w.name == nm then { w with attrs := dinsert w.attrs k val } else w)
      = ds.vars := by
    have hc : ∀ w ∈ ds.vars,
        (if w.name == nm then { w with attrs := dinsert w.attrs k val } else w)
          = id w := by
      intro w hw
      simp [hasVar_forall hfresh w hw]
    simpa using (List.map_congr_left hc).trans (List.map_id _)
  simp only [setVarAttr, List.map_append]
  rw [hmap]
  simp [hname]

theorem getVar_append_fresh (ds : NCDataset) (v : NCVariable) (nm : String)
    (hfresh : hasVar ds nm = false) (hname : v.name = nm) :
    getVar { ds with vars := ds.vars ++ [v] } nm = some v := by
  have hnone : ds.vars.find? (fun w => w.name == nm) = none :=
    List.find?_eq_none.mpr (fun w hw => by simp [hasVar_forall hfresh w hw])
  simp [getVar, List.find?_append, hnone, List.find?, hname]

theorem createVariable_dims (ds : NCDataset) (nm ty : String)
    (dims : List String) (fv : Option String) (ds2 : NCDataset)
    (h : createVariable ds nm ty dims fv = Except.ok ds2) : ds2.dims = ds.dims := by
  simp only [createVariable] at h
  split at h
  · cases h
  · split at h
    · simp only [Except.ok.injEq] at h
      subst h
      rfl
    · cases h

/-! ### C6 — CreateVariable and dimensions -/

/-- The schema registry used by the C6 and C4 concrete cases: one complete
entry for `WS` whose dimension list is `time`. -/
def c6Reg : Registry :=
  [("WS", [("name", "WS"), ("type", "float32"), ("dimension", "time"),
    ("_FillValue", "-9999.0"), ("long_name", "Wind Speed"), ("units", "m/s"),
    ("coordinates", "latitude longitude"), ("cell_methods", "time: mean"),
    ("standard_name", "wind_speed")])]

/-- A Dataset on which only the `time` dimension exists. -/
def dsTime : NCDataset := ⟨[("time", none)], [], []⟩

/-- C6 (counterexample): on a fresh Dataset without the `time` dimension,
creating the schema variable `WS` (whose dimension list is `time`) fails —
`amf_var_to_netcdf_var` does not create the missing dimension first, as the
claim requires. -/
theorem c6_counterexample :
    amf_var_to_netcdf_var c6Reg emptyDataset "WS"
      = Except.error ("KeyError: dimension not found for variable " ++ "WS") := by
  rfl

/-- C6 (amended): `amf_var_to_netcdf_var` never creates a dimension — any
successful call leaves the Dataset's dimension list exactly as it was, so
every referenced dimension must already exist beforehand. -/
theorem c6_no_dimension_creation (amfvars : Registry) (ds : NCDataset)
    (varname : String) (ds' : NCDataset)
    (h : amf_var_to_netcdf_var amfvars ds varname = Except.ok ds') :
    ds'.dims = ds.dims := by
  rcases hde : dlookup amfvars varname with _ | entry
  · simp [amf_var_to_netcdf_var, reqKey, bind, Except.bind, hde] at h
  rcases hnm : dlookup entry "name" with _ | nm
  · simp [amf_var_to_netcdf_var, reqKey, bind, Except.bind, hde, hnm] at h
  rcases hty : dlookup entry "type" with _ | ty
  · simp [amf_var_to_netcdf_var, reqKey, bind, Except.bind, hde, hnm, hty] at h
  rcases hdim : dlookup entry "dimension" with _ | dim
  · simp [amf_var_to_netcdf_var, reqKey, bind, Except.bind, hde, hnm, hty,
      hdim] at h
  rcases hfv : dlookup entry "_FillValue" with _ | fv
  · simp [amf_var_to_netcdf_var, reqKey, bind, Except.bind, hde, hnm, hty,
      hdim, hfv] at h
  rcases hcv : createVariable ds nm ty (splitStrip dim) (some fv) with e | ds1
  · simp [amf_var_to_netcdf_var, reqKey, bind, Except.bind, hde, hnm, hty,
      hdim, hfv, hcv] at h
  rcases hln : dlookup entry "long_name" with _ | ln
  · simp [amf_var_to_netcdf_var, reqKey, bind, Except.bind, hde, hnm, hty,
      hdim, hfv, hcv, hln] at h
  rcases hun : dlookup entry "units" with _ | un
  · simp [amf_var_to_netcdf_var, reqKey, bind, Except.bind, hde, hnm, hty,
      hdim, hfv, hcv, hln, hun] at h
  rcases hco : dlookup entry "coordinates" with _ | co
  · simp [amf_var_to_netcdf_var, reqKey, bind, Except.bind, hde, hnm, hty,
      hdim, hfv, hcv, hln, hun, hco] at h
  rcases hcm : dlookup entry "cell_methods" with _ | cm
  · simp [amf_var_to_netcdf_var, reqKey, bind, Except.bind, hde, hnm, hty,
      hdim, hfv, hcv, hln, hun, hco, hcm] at h
  rcases hsn : dlookup entry "standard_name" with _ | sn
  · simp [amf_var_to_netcdf_var, reqKey, bind, Except.bind, hde, hnm, hty,
      hdim, hfv, hcv, hln, hun, hco, hcm, hsn] at h
  simp only [amf_var_to_netcdf_var, reqKey, hde, hnm, hty, hdim, hfv, hcv,
    hln, hun, hco, hcm, hsn, bind, Except.bind] at h
  split at h
  · simp only [Except.ok.injEq] at h
    subst h
    exact createVariable_dims ds nm ty (splitStrip dim) (some fv) ds1 hcv
  · simp only [Except.ok.injEq] at h
    subst h
    exact createVariable_dims ds nm ty (splitStrip dim) (some fv) ds1 hcv

/-- The Dataset produced by the C6 witness call: the variable is created,
the dimension list of the Dataset is untouched. -/
def c6ResultDs : NCDataset :=
  ⟨[("time", none)],
   [⟨"WS", "float32", ["time"], some "-9999.0",
     [("long_name", "Wind Speed"), ("units", "m/s"),
      ("coordinates", "latitude longitude"), ("cell_methods", "time: mean"),
      ("dimension", "time"), ("type", "float32"),
      ("standard_name", "wind_speed")], []⟩],
   []⟩

/-- C6 witness: a concrete successful call on a Dataset that already has
the `time` dimension leaves the dimension list unchanged. -/
theorem c6_no_dimension_creation_witness :
    amf_var_to_netcdf_var c6Reg dsTime "WS" = Except.ok c6ResultDs ∧
    c6ResultDs.dims = dsTime.dims := by
  have h1 : amf_var_to_netcdf_var c6Reg dsTime "WS" = Except.ok c6ResultDs := by
    rfl
  exact ⟨h1, c6_no_dimension_creation c6Reg dsTime "WS" c6ResultDs h1⟩

/-! ### C4 — attribute writing and standard_name handling -/

/-- Attribute dict written by `amf_var_to_netcdf_var` onto the created
variable, in write order, with `standard_name` only when non-empty. -/
def amfAttrs (ty dim ln un co cm sn : String) : List (String × String) :=
  if 0 < sn.length then
    [("long_name", ln), ("units", un), ("coordinates", co),
     ("cell_methods", cm), ("dimension", dim), ("type", ty),
     ("standard_name", sn)]
  else
    [("long_name", ln), ("units", un), ("coordinates", co),
     ("cell_methods", cm), ("dimension", dim), ("type", ty)]

/-- The NetCDF variable produced by a successful `amf_var_to_netcdf_var`. -/
def amfVar (nm ty dim fv ln un co cm sn : String) : NCVariable :=
  ⟨nm, ty, splitStrip dim, some fv, amfAttrs ty dim ln un co cm sn, []⟩

theorem amf_var_ok_shape (amfvars : Registry) (ds : NCDataset)
    (varname : String) (entry : List (String × String))
    (nm ty dim fv ln un co cm sn : String)
    (hde : dlookup amfvars varname = some entry)
    (hnm : dlookup entry "name" = some nm)
    (hty : dlookup entry "type" = some ty)
    (hdim : dlookup entry "dimension" = some dim)
    (hfv : dlookup entry "_FillValue" = some fv)
    (hln : dlookup entry "long_name" = some ln)
    (hun : dlookup entry "units" = some un)
    (hco : dlookup entry "coordinates" = some co)
    (hcm : dlookup entry "cell_methods" = some cm)
    (hsn : dlookup entry "standard_name" = some sn)
    (hvar : hasVar ds nm = false)
    (hdims : (splitStrip dim).all (hasDim ds) = true) :
    amf_var_to_netcdf_var amfvars ds varname
      = Except.ok { ds with
          vars := ds.vars ++ [amfVar nm ty dim fv ln un co cm sn] } := by
  have hcv : createVariable ds nm ty (splitStrip dim) (some fv)
      = Except.ok { ds with
          vars := ds.vars ++ [⟨nm, ty, splitStrip dim, some fv, [], []⟩] } := by
    simp [createVariable, hvar, hdims]
  simp only [amf_var_to_netcdf_var, reqKey, hde, hnm, hty, hdim, hfv, hcv,
    hln, hun, hco, hcm, hsn, bind, Except.bind]
  rw [setVarAttr_append_fresh _ _ _ _ _ hvar rfl]
  rw [setVarAttr_append_fresh _ _ _ _ _ hvar rfl]
  rw [setVarAttr_append_fresh _ _ _ _ _ hvar rfl]
  rw [setVarAttr_append_fresh _ _ _ _ _ hvar rfl]
  rw [setVarAttr_append_fresh _ _ _ _ _ hvar rfl]
  rw [setVarAttr_append_fresh _ _ _ _ _ hvar rfl]
  by_cases hsl : 0 < sn.length
  · rw [if_pos hsl, setVarAttr_append_fresh _ _ _ _ _ hvar rfl]
    simp only [amfVar, amfAttrs, if_pos hsl]
    rfl
  · rw [if_neg hsl]
    simp only [amfVar, amfAttrs, if_neg hsl]
    rfl

/-- C4 (amended): a successful variable creation writes the `long_name`,
`units`, `coordinates`, `cell_methods`, `dimension` and `type` attributes;
when the entry's `standard_name` is the empty string the attribute is
omitted entirely without failing (never written empty); but when the
`standard_name` key is absent from the entry the call fails with a key
lookup error instead of omitting the attribute. -/
theorem c4_standard_name_handling :
    (∀ (amfvars : Registry) (ds : NCDataset) (varname : String)
      (entry : List (String × String)) (nm ty dim fv ln un co cm : String),
      dlookup amfvars varname = some entry →
      dlookup entry "name" = some nm →
      dlookup entry "type" = some ty →
      dlookup entry "dimension" = some dim →
      dlookup entry "_FillValue" = some fv →
      dlookup entry "long_name" = some ln →
      dlookup entry "units" = some un →
      dlookup entry "coordinates" = some co →
      dlookup entry "cell_methods" = some cm →
      dlookup entry "standard_name" = some "" →
      hasVar ds nm = false →
      (splitStrip dim).all (hasDim ds) = true →
      ∃ ds', amf_var_to_netcdf_var amfvars ds varname = Except.ok ds' ∧
        varAttr ds' nm "long_name" = some ln ∧
        varAttr ds' nm "units" = some un ∧
        varAttr ds' nm "coordinates" = some co ∧
        varAttr ds' nm "cell_methods" = some cm ∧
        varAttr ds' nm "dimension" = some dim ∧
        varAttr ds' nm "type" = some ty ∧
        varAttr ds' nm "standard_name" = none) ∧
    (∀ (amfvars : Registry) (ds : NCDataset) (varname : String)
      (entry : List (String × String)) (nm ty dim fv ln un co cm : String),
      dlookup amfvars varname = some entry →
      dlookup entry "name" = some nm →
      dlookup entry "type" = some ty →
      dlookup entry "dimension" = some dim →
      dlookup entry "_FillValue" = some fv →
      dlookup entry "long_name" = some ln →
      dlookup entry "units" = some un →
      dlookup entry "coordinates" = some co →
      dlookup entry "cell_methods" = some cm →
      dlookup entry "standard_name" = none →
      ∃ e, amf_var_to_netcdf_var amfvars ds varname = Except.error e) := by
  constructor
  · intro amfvars ds varname entry nm ty dim fv ln un co cm hde hnm hty hdim
      hfv hln hun hco hcm hsn hvar hdims
    have hshape := amf_var_ok_shape amfvars ds varname entry nm ty dim fv ln
      un co cm "" hde hnm hty hdim hfv hln hun hco hcm hsn hvar hdims
    have hget : getVar { ds with
        vars := ds.vars ++ [amfVar nm ty dim fv ln un co cm ""] } nm
        = some (amfVar nm ty dim fv ln un co cm "") :=
      getVar_append_fresh _ _ _ hvar rfl
    refine ⟨_, hshape, ?_, ?_, ?_, ?_, ?_, ?_, ?_⟩
    all_goals simp only [varAttr, hget]
    all_goals rfl
  · intro amfvars ds varname entry nm ty dim fv ln un co cm hde hnm hty hdim
      hfv hln hun hco hcm hsn
    rcases hcv : createVariable ds nm ty (splitStrip dim) (some fv) with e | ds1
    · refine ⟨e, ?_⟩
      simp [amf_var_to_netcdf_var, reqKey, bind, Except.bind, hde, hnm, hty,
        hdim, hfv, hcv]
    · refine ⟨"KeyError: " ++ "standard_name", ?_⟩
      simp [amf_var_to_netcdf_var, reqKey, bind, Except.bind, hde, hnm, hty,
        hdim, hfv, hcv, hln, hun, hco, hcm, hsn]

/-- The registry of the C4 counterexample: a complete `WS` entry except
that the `standard_name` attribute is absent. -/
def c4RegNoSN : Registry :=
  [("WS", [("name", "WS"), ("type", "float32"), ("dimension", "time"),
    ("_FillValue", "-9999.0"), ("long_name", "Wind Speed"), ("units", "m/s"),
    ("coordinates", "latitude longitude"), ("cell_methods", "time: mean")])]

/-- C4 (counterexample): with `standard_name` absent from the entry, the
claim requires the variable to be created with the attribute omitted and
without failing; the code instead fails with a key lookup error. -/
theorem c4_counterexample :
    amf_var_to_netcdf_var c4RegNoSN dsTime "WS"
      = Except.error ("KeyError: " ++ "standard_name") := by
  rfl

/-- The registry of the C4 witness: a complete `WS` entry whose
`standard_name` is the empty string. -/
def c4RegEmptySN : Registry :=
  [("WS", [("name", "WS"), ("type", "float32"), ("dimension", "time"),
    ("_FillValue", "-9999.0"), ("long_name", "Wind Speed"), ("units", "m/s"),
    ("coordinates", "latitude longitude"), ("cell_methods", "time: mean"),
    ("standard_name", "")])]

/-- C4 witness: both halves of the amended theorem at concrete inputs. -/
theorem c4_standard_name_handling_witness :
    (∃ ds', amf_var_to_netcdf_var c4RegEmptySN dsTime "WS" = Except.ok ds' ∧
      varAttr ds' "WS" "long_name" = some "Wind Speed" ∧
      varAttr ds' "WS" "units" = some "m/s" ∧
      varAttr ds' "WS" "coordinates" = some "latitude longitude" ∧
      varAttr ds' "WS" "cell_methods" = some "time: mean" ∧
      varAttr ds' "WS" "dimension" = some "time" ∧
      varAttr ds' "WS" "type" = some "float32" ∧
      varAttr ds' "WS" "standard_name" = none) ∧
    (∃ e, amf_var_to_netcdf_var c4RegNoSN dsTime "WS" = Except.error e) := by
  constructor
  · exact c4_standard_name_handling.1 c4RegEmptySN dsTime "WS" _ "WS"
      "float32" "time" "-9999.0" "Wind Speed" "m/s" "latitude longitude"
      "time: mean" rfl rfl rfl rfl rfl rfl rfl rfl rfl rfl rfl rfl
  · exact c4_standard_name_handling.2 c4RegNoSN dsTime "WS" _ "WS"
      "float32" "time" "-9999.0" "Wind Speed" "m/s" "latitude longitude"
      "time: mean" rfl rfl rfl rfl rfl rfl rfl rfl rfl rfl

/-! ### C7 — one-shot static location -/

theorem land_coordinates_residual (ds : NCDataset) (md : MetaStore)
    (ds' : NCDataset) (md' : MetaStore)
    (h : land_coordinates ds md = Except.ok (ds', md')) :
    md' = derase (derase md "platform_longitude") "platform_latitude" := by
  simp only [land_coordinates, reqKey, bind, Except.bind] at h
  repeat' split at h
  any_goals exact Except.noConfusion h
  simp only [Except.ok.injEq, Prod.mk.injEq] at h
  exact h.2.symm

theorem land_coordinates_needs_longitude (ds : NCDataset) (md : MetaStore)
    (hmd : dlookup md "platform_longitude" = none)
    (r : NCDataset × MetaStore) :
    land_coordinates ds md ≠ Except.ok r := by
  intro h
  simp only [land_coordinates, reqKey, hmd, bind, Except.bind] at h
  repeat' split at h
  all_goals exact Except.noConfusion h

/-- C7: a successful `land_coordinates` call removes both coordinate keys
from the metadata store, and a second call on the resulting store — on any
Dataset — fails instead of writing a stale, default or zero coordinate. -/
theorem c7_land_coordinates_one_shot (ds : NCDataset) (md : MetaStore)
    (ds' : NCDataset) (md' : MetaStore)
    (h : land_coordinates ds md = Except.ok (ds', md')) :
    dlookup md' "platform_latitude" = none ∧
    dlookup md' "platform_longitude" = none ∧
    ∀ (ds2 : NCDataset) (r : NCDataset × MetaStore),
      land_coordinates ds2 md' ≠ Except.ok r := by
  have hres := land_coordinates_residual ds md ds' md' h
  subst hres
  refine ⟨dlookup_derase_self _ _, ?_, ?_⟩
  · rw [dlookup_derase_ne _ _ _ (by decide)]
    exact dlookup_derase_self _ _
  · intro ds2 r
    apply land_coordinates_needs_longitude
    rw [dlookup_derase_ne _ _ _ (by decide)]
    exact dlookup_derase_self _ _

/-- The Dataset produced by the C7 witness call. -/
def c7Ds : NCDataset :=
  ⟨[("latitude", some 1), ("longitude", some 1)],
   [⟨"latitude", "float32", ["latitude"], none,
     [("units", "degrees_north"), ("standard_name", "latitude"),
      ("long_name", "Latitude"), ("type", "float32"),
      ("dimension", "latitude")],
     [NCValue.str "52.0"]⟩,
    ⟨"longitude", "float32", ["longitude"], none,
     [("units", "degrees_east"), ("standard_name", "longitude"),
      ("long_name", "Longitude"), ("type", "float32"),
      ("dimension", "longitude")],
     [NCValue.str "0.1"]⟩],
   []⟩

/-- C7 witness: a concrete successful call consumes both keys and a second
call on the residual store fails. -/
theorem c7_land_coordinates_one_shot_witness :
    land_coordinates emptyDataset
      [("platform_latitude", ["52.0"]), ("platform_longitude", ["0.1"])]
      = Except.ok (c7Ds, []) ∧
    dlookup ([] : MetaStore) "platform_latitude" = none ∧
    dlookup ([] : MetaStore) "platform_longitude" = none ∧
    land_coordinates emptyDataset [] ≠ Except.ok (c7Ds, []) := by
  have h1 : land_coordinates emptyDataset
      [("platform_latitude", ["52.0"]), ("platform_longitude", ["0.1"])]
      = Except.ok (c7Ds, []) := by rfl
  have h2 := c7_land_coordinates_one_shot emptyDataset _ c7Ds [] h1
  exact ⟨h1, h2.1, h2.2.1, h2.2.2 emptyDataset (c7Ds, [])⟩

/-! ### C2 — standard time construction -/

/-- Type tag of a named variable. -/
def varType (ds : NCDataset) (vname : String) : Option String :=
  (getVar ds vname).map (fun v => v.vtype)

/-- The `time` variable produced by `add_standard_time`, for a given index. -/
def c2TimeVar (index : List DateTime) : NCVariable :=
  ⟨"time", "float64", ["time"], none,
   [("units", "seconds since 1970-01-01 00:00:00"), ("axis", "T"),
    ("standard_name", "time"),
    ("long_name", "Time (seconds since 1970-01-01 00:00:00)"),
    ("calendar", "standard"), ("type", "float64"), ("dimension", "time")],
   index.map (fun t => NCValue.int (epochSeconds t))⟩

/-- The Dataset produced by `add_standard_time` on a fresh Dataset, for a
given index with first and last entries. -/
def c2Ds (index : List DateTime) (first last : DateTime) : NCDataset :=
  ⟨[("time", none)], [c2TimeVar index],
   [("time_coverage_start", strftimeAttrib first),
    ("time_coverage_end", strftimeAttrib last)]⟩

/-- C2: on a fresh Dataset and a non-empty, non-decreasing index,
`add_standard_time` writes the per-row offsets in seconds from the epoch
into the 64-bit `time` variable, sets its `units` attribute to the literal
string `seconds since 1970-01-01 00:00:00` with `axis`, `standard_name`
and `calendar` as claimed, and sets the coverage global attributes to the
first and last timestamps in `YYYY-MM-DDTHH:MM:SS` form. -/
theorem c2_add_standard_time (index : List DateTime) (first last : DateTime)
    (hfirst : index.head? = some first) (hlast : index.getLast? = some last)
    (hmono : (index.map epochSeconds).Pairwise (· ≤ ·)) :
    ∃ ds, add_standard_time emptyDataset index = Except.ok ds ∧
      varData ds "time"
        = some (index.map (fun t => NCValue.int (epochSeconds t))) ∧
      varType ds "time" = some "float64" ∧
      varAttr ds "time" "units" = some "seconds since 1970-01-01 00:00:00" ∧
      varAttr ds "time" "axis" = some "T" ∧
      varAttr ds "time" "standard_name" = some "time" ∧
      varAttr ds "time" "calendar" = some "standard" ∧
      globalAttr ds "time_coverage_start" = some (strftimeAttrib first) ∧
      globalAttr ds "time_coverage_end" = some (strftimeAttrib last) := by
  rcases index with _ | ⟨a, tl⟩
  · simp at hfirst
  have ha : a = first := by simpa using hfirst
  subst ha
  have hlast' : (a :: tl).getLast (List.cons_ne_nil a tl) = last := by
    have hg := List.getLast?_eq_getLast_of_ne_nil (l := a :: tl)
      (List.cons_ne_nil a tl)
    rw [hg] at hlast
    exact Option.some.inj hlast
  refine ⟨c2Ds (a :: tl) a last, ?_, rfl, rfl, rfl, rfl, rfl, rfl, rfl, rfl⟩
  rw [← hlast']
  rfl

/-- The observation index of the C2 witness. -/
def c2Index : List DateTime := [⟨2020, 1, 1, 0, 0, 0⟩, ⟨2020, 1, 1, 0, 10, 0⟩]

/-- C2 witness: the theorem at the concrete two-row index, with the
offsets evaluating to `[1577836800, 1577837400]` and the coverage
attributes to the formatted first and last timestamps. -/
theorem c2_add_standard_time_witness :
    c2Index.head? = some ⟨2020, 1, 1, 0, 0, 0⟩ ∧
    c2Index.getLast? = some ⟨2020, 1, 1, 0, 10, 0⟩ ∧
    (c2Index.map epochSeconds).Pairwise (· ≤ ·) ∧
    ∃ ds, add_standard_time emptyDataset c2Index = Except.ok ds ∧
      varData ds "time"
        = some [NCValue.int 1577836800, NCValue.int 1577837400] ∧
      varAttr ds "time" "units" = some "seconds since 1970-01-01 00:00:00" ∧
      globalAttr ds "time_coverage_start" = some "2020-01-01T00:00:00" ∧
      globalAttr ds "time_coverage_end" = some "2020-01-01T00:10:00" := by
  refine ⟨rfl, rfl, by decide, ?_⟩
  obtain ⟨ds, h1, h2, h3, h4, h5, h6, h7, h8, h9⟩ :=
    c2_add_standard_time c2Index ⟨2020, 1, 1, 0, 0, 0⟩ ⟨2020, 1, 1, 0, 10, 0⟩
      rfl rfl (by decide)
  refine ⟨ds, h1, ?_, h4, ?_, ?_⟩
  · rw [h2]
    rfl
  · rw [h8]
    rfl
  · rw [h9]
    rfl

end AMF
